import Mathlib

/-!
Verification of `odl/space/fspace.py` (`FunctionSet` / `FunctionSpace`).

The Python module is shallowly embedded as executable Lean definitions:

* Python runtime values that flow through function evaluation are modelled by
  the inductive type `Val K`.  The scalar type `K` is any linearly ordered
  commutative ring standing in for the floating point scalars of the real or
  complex field (theorems are proved for every such `K`; concrete witnesses
  instantiate `K := ℤ`).  Array-like objects carry a flag telling a
  `numpy.ndarray` apart from a plain list or tuple, because `__call__`
  inspects `isinstance(x[0], np.ndarray)`.
* Raising a Python exception is modelled by `Except Err`; `Err` records the
  kind of the exception (TypeError, ValueError, AttributeError, IndexError).
* A Python callable is modelled as `Callable K := List (Val K) → Except Err (Val K)`
  (the list being the positional argument tuple).
* Mutable `Vector` objects live in a `Store K := Nat → FunctionSet.Vector K`;
  a `Nat` index plays the role of an object reference, so `is`-identity is
  index equality and the in-place rebinding performed by `_lincomb` and
  `_multiply` is a store update.

The collaborator classes (`Set`, `IntervalProd`, `RealNumbers`,
`ComplexNumbers`, `Operator`, `LinearSpace`) are not part of the source
file; where their behaviour decides a claim they are modelled from the spec
(see `SetObj` below).  The `Operator` base contract contributes nothing to
evaluation here: `FunctionSet.Vector` defines its own `__call__` and `_call`
(the source marks this with a FIXME as a hack bypassing the operator
pattern), so those two methods are embedded exactly as written.
-/

/-- A Python runtime value as far as this module inspects it: a field scalar,
or an array-like.  The Boolean flag is `true` for a `numpy.ndarray` and
`false` for a plain list/tuple. -/
inductive Val (K : Type) where
  | scalar : K → Val K
  | arr : Bool → List (Val K) → Val K

/-- The kind of a raised Python exception. -/
inductive Err where
  | typeErr  : Err  -- TypeError
  | valueErr : Err  -- ValueError
  | attrErr  : Err  -- AttributeError
  | indexErr : Err  -- IndexError
deriving DecidableEq, Repr

/-- A Python callable: positional argument tuple to result, or raised error. -/
def Callable (K : Type) : Type := List (Val K) → Except Err (Val K)

variable {K : Type} [CommRing K] [LinearOrder K]

/-- Extract the scalar coordinates of a list of values, provided every entry
is a scalar. -/
def scalarList? : List (Val K) → Option (List K)
  | [] => some []
  | .scalar q :: vs => (scalarList? vs).map (q :: ·)
  | .arr _ _ :: _ => none

/-- Modelled from the spec: the external `Set` collaborators this module
consumes (`odl.set` is not part of the source under verification).  The spec
requires of a `Set` only a membership test and structural equality; the
concrete sets exercised by the claims are the axis-aligned `IntervalProd`
(per-axis bounds `lo`, `hi`; dimensionality `lo.length`) and the scalar
fields `RealNumbers` / `ComplexNumbers`. -/
inductive SetObj (K : Type) where
  | intervalProd : List K → List K → SetObj K
  | realNumbers : SetObj K
  | complexNumbers : SetObj K
deriving DecidableEq

/-- Modelled from the spec: bounds check of a coordinate vector against the
per-axis intervals of an `IntervalProd`. -/
def inBox (lo hi cs : List K) : Bool :=
  cs.length = lo.length ∧ cs.length = hi.length ∧
    ((cs.zip (lo.zip hi)).all fun c => c.2.1 ≤ c.1 ∧ c.1 ≤ c.2.2)

/-- Modelled from the spec: the membership test `x in S` of the external
sets.  An `IntervalProd` contains exactly the array-like coordinate vectors
of its dimensionality whose entries lie in the per-axis bounds; a scalar
field contains exactly the scalars. -/
def SetObj.memB : SetObj K → Val K → Bool
  | .intervalProd lo hi, .arr _ vs =>
      match scalarList? vs with
      | some cs => inBox lo hi cs
      | none => false
  | .intervalProd _ _, .scalar _ => false
  | .realNumbers, .scalar _ => true
  | .realNumbers, .arr _ _ => false
  | .complexNumbers, .scalar _ => true
  | .complexNumbers, .arr _ _ => false

/-- Modelled from the spec: `self.domain.ndim`, the dimensionality of an
`IntervalProd` (only the vectorization branch asks for it, and only after
checking `isinstance(self.domain, IntervalProd)`). -/
def SetObj.ndim : SetObj K → Nat
  | .intervalProd lo _ => lo.length
  | _ => 0

/-- The runtime class of a space object: `FunctionSet` or its subclass
`FunctionSpace`. -/
inductive SpaceKind where
  | fset : SpaceKind
  | fspace : SpaceKind
deriving DecidableEq, Repr

/-- The runtime class of an element object: `FunctionSet.Vector` or its
subclass `FunctionSpace.Vector`. -/
inductive VecKind where
  | setVec : VecKind
  | spaceVec : VecKind
deriving DecidableEq, Repr

/-- A `FunctionSet` (or `FunctionSpace`) instance: its runtime class, its
`_domain` and its `_range`.  For a `FunctionSpace`, `__init__` passes the
field as the range (`super().__init__(dom, field)`), so `ran` doubles as the
`_field` attribute. -/
structure FunctionSet (K : Type) where
  kind : SpaceKind
  domain : SetObj K
  ran : SetObj K
deriving DecidableEq

/-- A `FunctionSet.Vector` (or `FunctionSpace.Vector`) instance.
`Vector.__init__` sets `_space` and `_call_impl`; the instance attribute
`_call` (shadowing the class method) exists only after `_lincomb` rebinds it,
and `_function` only after `_multiply` sets it.  These two optional
attributes model exactly those instance-dictionary entries. -/
structure FunctionSet.Vector (K : Type) where
  kind : VecKind
  space : FunctionSet K
  callImpl : Callable K
  callAttr : Option (Callable K) := none
  functionAttr : Option (Callable K) := none

/-- The heap of `Vector` objects; a `Nat` index is an object reference. -/
def Store (K : Type) : Type := Nat → FunctionSet.Vector K

/-- The bound method `Vector._call` (line 170): `self._call_impl(*x)` for a
single positional argument `x`.  An array-like argument is unpacked into the
wrapped callable's positional arguments; a scalar cannot be unpacked (`*x`
raises TypeError); any other arity is a TypeError of `_call` itself, which
takes exactly one positional argument besides `self`. -/
def FunctionSet.Vector.boundCall (f : Callable K) : Callable K := fun args =>
  match args with
  | [.arr _ vs] => f vs
  | [.scalar _] => .error .typeErr
  | _ => .error .typeErr

/-- Attribute lookup `v._call`: the instance attribute if `_lincomb` has
rebound it, otherwise the bound class method. -/
def FunctionSet.Vector.getCall (v : FunctionSet.Vector K) : Callable K :=
  v.callAttr.getD (FunctionSet.Vector.boundCall v.callImpl)

/-- A row of a 2-D `ndarray`: a 1-D `ndarray` of scalars. -/
def rowScalars? : Val K → Option (List K)
  | .arr true cs => scalarList? cs
  | _ => none

/-- All entries as rows of scalars (`rowScalars?` on each entry). -/
def rowsScalars? : List (Val K) → Option (List (List K))
  | [] => some []
  | v :: vs => do pure ((← rowScalars? v) :: (← rowsScalars? vs))

/-- Rows of `x0` viewed as an `(N, d)` point matrix: succeeds exactly when
`x0` is an `ndarray` with `ndim == 2`, i.e. a nonempty rectangular array of
one-dimensional scalar rows, and returns those rows. -/
def ndMatrix? : Val K → Option (List (List K))
  | .arr true vs =>
      match rowsScalars? vs with
      | some rows =>
          match rows with
          | [] => none
          | r :: rs => if rs.all (fun s => s.length = r.length) then some (r :: rs) else none
      | none => none
  | _ => none

/-- The common length of the rows of a matrix (`shape[1]`). -/
def matrixWidth : List (List K) → Nat
  | [] => 0
  | r :: _ => r.length

/-- Minimum of a nonempty column (`np.min` over a 1-D slice); the default for
the empty list is never reached from `dispatchCheck`. -/
def colMin : List K → K
  | [] => 0
  | q :: qs => qs.foldl min q

/-- Maximum of a nonempty column. -/
def colMax : List K → K
  | [] => 0
  | q :: qs => qs.foldl max q

/-- Columnwise minima of a point matrix (`np.min(x[0], axis=0)`). -/
def colMins (rows : List (List K)) : List K := rows.transpose.map colMin

/-- Columnwise maxima of a point matrix (`np.max(x[0], axis=0)`). -/
def colMaxs (rows : List (List K)) : List K := rows.transpose.map colMax

mutual
/-- All scalar leaves of a possibly nested array-like, in row-major order;
`none` if some leaf is not a scalar. -/
def scalarLeaves : Val K → Option (List K)
  | .scalar q => some [q]
  | .arr _ vs => scalarLeavesList vs
/-- List version of `scalarLeaves`. -/
def scalarLeavesList : List (Val K) → Option (List K)
  | [] => some []
  | v :: vs => do pure ((← scalarLeaves v) ++ (← scalarLeavesList vs))
end

/-- `np.min(vec)` over all entries of an `ndarray`: ValueError on an empty
array (zero-size reduction), TypeError on non-numeric entries. -/
def npMinAll (v : Val K) : Except Err K :=
  match scalarLeaves v with
  | none => .error .typeErr
  | some [] => .error .valueErr
  | some (q :: qs) => .ok (qs.foldl min q)

/-- `np.max(vec)` over all entries of an `ndarray`. -/
def npMaxAll (v : Val K) : Except Err K :=
  match scalarLeaves v with
  | none => .error .typeErr
  | some [] => .error .valueErr
  | some (q :: qs) => .ok (qs.foldl max q)

/-- Whether a value is a `numpy.ndarray`. -/
def Val.isNdarray : Val K → Bool
  | .arr true _ => true
  | _ => false

/-- The list comprehension `[np.min(vec) for vec in x]`. -/
def npMins : List (Val K) → Except Err (List K)
  | [] => .ok []
  | v :: vs => do pure ((← npMinAll v) :: (← npMins vs))

/-- The list comprehension `[np.max(vec) for vec in x]`. -/
def npMaxs : List (Val K) → Except Err (List K)
  | [] => .ok []
  | v :: vs => do pure ((← npMaxAll v) :: (← npMaxs vs))

/-- The second recognized vectorized sub-shape of `__call__` (lines
226-240): `len(x) == self.domain.ndim` meshgrid-type `ndarray` arguments.
`min_coords` / `max_coords` are the Python lists of per-array extrema; the
bounding-box test then requires both inside the domain. -/
def meshgridCheck (dom : SetObj K) (args : List (Val K)) : Except Err Unit :=
  if args.length = dom.ndim ∧ args.all Val.isNdarray then
    match npMins args with
    | .error e => .error e
    | .ok mins =>
      match npMaxs args with
      | .error e => .error e
      | .ok maxs =>
        if ¬ (dom.memB (.arr false (mins.map .scalar))) ∨
           ¬ (dom.memB (.arr false (maxs.map .scalar))) then
          .error .valueErr
        else .ok ()
  else
    .error .typeErr  -- lines 231-235: neither a domain element nor a recognized shape

/-- The argument-dispatch and validation phase of `Vector.__call__` (lines
206-240), everything before `out = self._call(*x)`:

1. the whole argument tuple is a single point of the domain, or
2. the sole first argument is a single point of the domain, or
3. vectorization: only for `IntervalProd` domains (else TypeError); an
   `(N, ndim)` point array (first sub-shape) or `ndim` meshgrid arrays
   (second sub-shape), each validated by the bounding-box containment check
   with ValueError on failure; anything else is a TypeError.

An empty argument tuple reaches `x[0]` and raises IndexError. -/
def dispatchCheck (dom : SetObj K) (args : List (Val K)) : Except Err Unit :=
  if dom.memB (.arr false args) then .ok ()
  else
    match args with
    | [] => .error .indexErr
    | a0 :: _ =>
      if dom.memB a0 then .ok ()
      else
        match dom with
        | .intervalProd lo hi =>
          match ndMatrix? a0 with
          | some rows =>
            if matrixWidth rows = (SetObj.intervalProd lo hi).ndim then
              if ¬ ((SetObj.intervalProd lo hi).memB (.arr true ((colMins rows).map .scalar))) ∨
                 ¬ ((SetObj.intervalProd lo hi).memB (.arr true ((colMaxs rows).map .scalar))) then
                .error .valueErr
              else .ok ()
            else meshgridCheck (.intervalProd lo hi) args
          | none => meshgridCheck (.intervalProd lo hi) args
        | _ => .error .typeErr  -- line 213: vectorization only for IntervalProd domains

mutual
/-- First entry of the flattened `ndarray` (`out.flat[0]`); `none` on an
empty array, where the subscript would raise IndexError. -/
def ndFlatHead? : Val K → Option (Val K)
  | .arr true vs => ndFlatHeadList? vs
  | v => some v
/-- List version of `ndFlatHead?`. -/
def ndFlatHeadList? : List (Val K) → Option (Val K)
  | [] => none
  | v :: vs =>
      match ndFlatHead? v with
      | some w => some w
      | none => ndFlatHeadList? vs
end

/-- The result validation of `Vector.__call__` (lines 244-249): accept `out`
if it is an element of the range, or an `ndarray` whose first flattened
entry is an element of the range; otherwise TypeError. -/
def rangeCheck (ran : SetObj K) (out : Val K) : Except Err Unit :=
  if ran.memB out then .ok ()
  else
    match out with
    | .arr true vs =>
        match ndFlatHeadList? vs with
        | some w => if ran.memB w then .ok () else .error .typeErr
        | none => .error .indexErr
    | _ => .error .typeErr

/-- `Vector.__call__` (lines 193-251): dispatch and validate the arguments,
invoke `self._call(*x)` (the instance attribute `_call` if `_lincomb` has
rebound it, else the bound method), then validate the result against the
range. -/
def FunctionSet.Vector.call (v : FunctionSet.Vector K) (args : List (Val K)) :
    Except Err (Val K) := do
  dispatchCheck v.space.domain args
  match v.getCall args with
  | .error e => .error e
  | .ok out => do
      rangeCheck v.space.ran out
      pure out

/-- `FunctionSet.__eq__` (lines 94-109): identity short-circuit, then
`isinstance(other, FunctionSet)` — true of every modelled space object,
`FunctionSpace` included — and structural comparison of domain and range.
Value equality of the immutable space objects stands in for Python object
identity in the short-circuit; both branches agree wherever they overlap. -/
def FunctionSet.eqFSet (s o : FunctionSet K) : Bool :=
  decide (s = o) || (decide (s.domain = o.domain) && decide (s.ran = o.ran))

/-- `FunctionSpace.__eq__` (lines 402-418): identity short-circuit, then
`isinstance(other, FunctionSpace)` — which holds only of `FunctionSpace`
instances — and structural comparison of domain and range. -/
def FunctionSet.eqFSpace (s o : FunctionSet K) : Bool :=
  decide (s = o) ||
    (decide (o.kind = .fspace) && decide (s.domain = o.domain) && decide (s.ran = o.ran))

/-- Python dynamic dispatch of `s == o` on spaces: a `FunctionSet` instance
uses `FunctionSet.__eq__`, a `FunctionSpace` instance uses the override. -/
def FunctionSet.eqDyn (s o : FunctionSet K) : Bool :=
  match s.kind with
  | .fset => s.eqFSet o
  | .fspace => s.eqFSpace o

/-- An arbitrary Python object, as far as `__contains__` inspects it:
a `Vector` (of either class), or anything that is not a `Vector`. -/
inductive PyObj (K : Type) where
  | vec : FunctionSet.Vector K → PyObj K
  | nonVector : PyObj K

/-- `FunctionSet.__contains__` (lines 111-122): `isinstance(other,
FunctionSet.Vector)` — the base class, so instances of the subclass
`FunctionSpace.Vector` qualify as well — and `self == other.space`, with
`==` dispatched on `self`'s class. -/
def FunctionSet.containsPy (s : FunctionSet K) : PyObj K → Bool
  | .vec x => s.eqDyn x.space
  | .nonVector => false

/-- `FunctionSet.Vector.__eq__` (lines 173-189): identity short-circuit;
otherwise `isinstance(other, FunctionSet.Vector)` (true of both operands
here) and `self.space == other.space` evaluate first, and if both hold the
comparison reads `self._call_imp` — an attribute no `Vector` ever has (the
intended name is `_call_impl`), so the lookup raises AttributeError.  The
conjunction short-circuits, so unequal spaces still yield `False`. -/
def FunctionSet.vecEq (st : Store K) (u v : Nat) : Except Err Bool :=
  if u = v then .ok true
  else if (st u).space.eqDyn ((st v).space) then .error .attrErr
  else .ok false

/-- The argument of `element()`: a raw callable, or an existing element. -/
inductive ElementArg (K : Type) where
  | fn : Callable K → ElementArg K
  | vec : FunctionSet.Vector K → ElementArg K

/-- The element class a space instantiates (`self.Vector`). -/
def SpaceKind.elemKind : SpaceKind → VecKind
  | .fset => .setVec
  | .fspace => .spaceVec

/-- `isinstance(fcall, self.Vector)`: for a `FunctionSet`, `self.Vector` is
the base class `FunctionSet.Vector` and every element qualifies; for a
`FunctionSpace` it is `FunctionSpace.Vector` and only elements of that
subclass qualify. -/
def FunctionSet.isinstanceSelfVector (s : FunctionSet K) (vk : VecKind) : Bool :=
  match s.kind with
  | .fset => true
  | .fspace => decide (vk = .spaceVec)

/-- `self.Vector(self, fcall)` (`Vector.__init__`): a fresh element holding
`_space := self` and `_call_impl := fcall`; the callability and
`FunctionSet`-instance checks of `__init__` hold by construction here. -/
def FunctionSet.mkVector (s : FunctionSet K) (f : Callable K) : FunctionSet.Vector K :=
  ⟨s.kind.elemKind, s, f, none, none⟩

/-- `FunctionSet.element` (lines 71-92): an existing element of `self`'s own
element class is re-wrapped via `self.element(fcall._call)` — the bound
`_call` method, not the underlying `_call_impl` — which recurses into the
raw-callable case; a `Vector` of an unrelated class is still callable (it
has `__call__`) and is wrapped as such; a raw callable is wrapped directly. -/
def FunctionSet.element (s : FunctionSet K) : ElementArg K → FunctionSet.Vector K
  | .vec w =>
      if s.isinstanceSelfVector w.kind then s.mkVector w.getCall
      else s.mkVector (fun args => w.call args)
  | .fn f => s.mkVector f

/-- The closure `zero_` of `FunctionSpace.zero` (lines 397-399): ignores all
arguments and returns `self.field.element(0.0)`, the zero scalar of the
field. -/
def zeroCall : Callable K := fun _ => .ok (.scalar 0)

/-- `FunctionSpace.zero` (lines 389-400): `self.element(zero_)`. -/
def FunctionSpace.zero (s : FunctionSet K) : FunctionSet.Vector K :=
  s.element (.fn zeroCall)

/-- `FunctionSpace.element` (lines 301-322): no callable means the zero
element; otherwise defer to the `FunctionSet` wrapping behaviour. -/
def FunctionSpace.element (s : FunctionSet K) : Option (ElementArg K) → FunctionSet.Vector K
  | none => FunctionSpace.zero s
  | some a => s.element a

mutual
/-- In-place `out *= c` by a field scalar `c`: scalars multiply; `ndarray`s
multiply elementwise; a plain Python list times a float raises TypeError.
(The augmented product is written `q * c` because the scalar arrives on the
right.) -/
def imulScalar : Val K → K → Except Err (Val K)
  | .scalar q, c => .ok (.scalar (q * c))
  | .arr true vs, c =>
      match imulScalarList vs c with
      | .ok ws => .ok (.arr true ws)
      | .error e => .error e
  | .arr false _, _ => .error .typeErr
/-- List version of `imulScalar`. -/
def imulScalarList : List (Val K) → K → Except Err (List (Val K))
  | [], _ => .ok []
  | v :: vs, c => do pure ((← imulScalar v c) :: (← imulScalarList vs c))
end

mutual
/-- Broadcast addition of a scalar to a (possibly nested) `ndarray` entry. -/
def iaddScalar : Val K → K → Except Err (Val K)
  | .scalar p, q => .ok (.scalar (p + q))
  | .arr true vs, q =>
      match iaddScalarList vs q with
      | .ok us => .ok (.arr true us)
      | .error e => .error e
  | .arr false _, _ => .error .typeErr
/-- List version of `iaddScalar`. -/
def iaddScalarList : List (Val K) → K → Except Err (List (Val K))
  | [], _ => .ok []
  | v :: vs, q => do pure ((← iaddScalar v q) :: (← iaddScalarList vs q))
end

mutual
/-- In-place `out += tmp`: scalars add; same-shape `ndarray`s add
elementwise, with mismatched lengths a broadcast ValueError; an `ndarray`
and a scalar broadcast; two plain Python lists concatenate (Python `+=` on
lists); remaining mixes raise TypeError.  (Broadcasting beyond these shapes
is not exercised by any claim and is not modelled.) -/
def iaddVal : Val K → Val K → Except Err (Val K)
  | .scalar p, .scalar q => .ok (.scalar (p + q))
  | .arr true vs, .arr true ws =>
      match iaddList vs ws with
      | .ok us => .ok (.arr true us)
      | .error e => .error e
  | .arr true vs, .scalar q =>
      match iaddScalarList vs q with
      | .ok us => .ok (.arr true us)
      | .error e => .error e
  | .scalar p, .arr true ws =>
      match iaddScalarList ws p with
      | .ok us => .ok (.arr true us)
      | .error e => .error e
  | .arr false vs, .arr false ws => .ok (.arr false (vs ++ ws))
  | _, _ => .error .typeErr
/-- Elementwise addition of equally long lists of values. -/
def iaddList : List (Val K) → List (Val K) → Except Err (List (Val K))
  | [], [] => .ok []
  | v :: vs, w :: ws => do pure ((← iaddVal v w) :: (← iaddList vs ws))
  | _, _ => .error .valueErr
end

mutual
/-- Broadcast product of a (possibly nested) `ndarray` entry with a scalar. -/
def valMulScalar : Val K → K → Except Err (Val K)
  | .scalar p, q => .ok (.scalar (p * q))
  | .arr true vs, q =>
      match valMulScalarList vs q with
      | .ok us => .ok (.arr true us)
      | .error e => .error e
  | .arr false _, _ => .error .typeErr
/-- List version of `valMulScalar`. -/
def valMulScalarList : List (Val K) → K → Except Err (List (Val K))
  | [], _ => .ok []
  | v :: vs, q => do pure ((← valMulScalar v q) :: (← valMulScalarList vs q))
end

mutual
/-- Out-of-place product `x * y`: scalars multiply; same-shape `ndarray`s
multiply elementwise; an `ndarray` and a scalar broadcast; anything else
raises TypeError. -/
def valMul : Val K → Val K → Except Err (Val K)
  | .scalar p, .scalar q => .ok (.scalar (p * q))
  | .arr true vs, .arr true ws =>
      match valMulList vs ws with
      | .ok us => .ok (.arr true us)
      | .error e => .error e
  | .arr true vs, .scalar q =>
      match valMulScalarList vs q with
      | .ok us => .ok (.arr true us)
      | .error e => .error e
  | .scalar p, .arr true ws =>
      match valMulScalarList ws p with
      | .ok us => .ok (.arr true us)
      | .error e => .error e
  | _, _ => .error .typeErr
/-- Elementwise product of equally long lists of values. -/
def valMulList : List (Val K) → List (Val K) → Except Err (List (Val K))
  | [], [] => .ok []
  | v :: vs, w :: ws => do pure ((← valMul v w) :: (← valMulList vs ws))
  | _, _ => .error .valueErr
end

/-- The closure `lincomb_call` synthesized by `FunctionSpace._lincomb`
(lines 336-358) over the captured coefficients and old callables:

* `a == 0 and b != 0`: `out = y_old_call(*x)`, scaled by `b` unless `b == 1`;
* `b == 0` (covering `a == 0 and b == 0`): `out = x_old_call(*x)`, scaled by
  `a` unless `a == 1`;
* otherwise: `out = x_old_call(*x)`, scaled by `a` unless `a == 1`, then
  `tmp = y_old_call(*x)`, scaled by `b` unless `b == 1`, then `out += tmp`. -/
def lincombCall (a : K) (xOldCall : Callable K) (b : K) (yOldCall : Callable K) :
    Callable K := fun args =>
  if a = 0 ∧ b ≠ 0 then
    match yOldCall args with
    | .error e => .error e
    | .ok out => if b ≠ 1 then imulScalar out b else .ok out
  else if b = 0 then
    match xOldCall args with
    | .error e => .error e
    | .ok out => if a ≠ 1 then imulScalar out a else .ok out
  else
    match xOldCall args with
    | .error e => .error e
    | .ok out =>
      match (if a ≠ 1 then imulScalar out a else .ok out : Except Err (Val K)) with
      | .error e => .error e
      | .ok out =>
        match yOldCall args with
        | .error e => .error e
        | .ok tmp =>
          match (if b ≠ 1 then imulScalar tmp b else .ok tmp : Except Err (Val K)) with
          | .error e => .error e
          | .ok tmp => iaddVal out tmp

/-- `FunctionSpace._lincomb` (lines 324-387): capture `x._call` and
`y._call` first (`# Store to allow aliasing`), then rebind `out._call` to
the synthesized closure.  The companion closure `lincomb_apply` is defined
in the source but never bound to anything (no assignment to an `_apply`
attribute follows), so it has no observable effect and is not embedded. -/
def FunctionSpace.lincomb (a : K) (x : Nat) (b : K) (y : Nat) (out : Nat)
    (st : Store K) : Store K :=
  let xOldCall := (st x).getCall
  let yOldCall := (st y).getCall
  fun i =>
    if i = out then
      { st i with callAttr := some (lincombCall a xOldCall b yOldCall) }
    else st i

/-- Attribute lookup `v.function` in `FunctionSpace._multiply`: no `Vector`
ever carries an attribute named `function` (`__init__` sets `_space` and
`_call_impl`, `_lincomb` sets `_call`, `_multiply` itself sets `_function`),
so the lookup raises AttributeError. -/
def FunctionSet.Vector.getAttrFunction (_v : FunctionSet.Vector K) : Except Err (Callable K) :=
  .error .attrErr

/-- `FunctionSpace._multiply` (lines 420-434): read `x.function` and
`y.function`, synthesize `product(arg) = x_old(arg) * y_old(arg)`, and set
`y._function` to it.  The first attribute read already raises
AttributeError, and even the assignment it never reaches would touch only
the unread `_function` attribute, not the `_call` used by evaluation. -/
def FunctionSpace.multiply (st : Store K) (x y : Nat) : Except Err (Store K) := do
  let xOld ← (st x).getAttrFunction
  let yOld ← (st y).getAttrFunction
  let product : Callable K := fun arg => do valMul (← xOld arg) (← yOld arg)
  pure (fun i => if i = y then { st i with functionAttr := some product } else st i)

/-- A one-dimensional coordinate vector as a 1-D `ndarray`. -/
def coordArray (cs : List K) : Val K := .arr true (cs.map .scalar)

/-- An `(N, d)` point array: a 2-D `ndarray` whose rows are the points. -/
def pointMatrix (rows : List (List K)) : Val K := .arr true (rows.map coordArray)

/-- Sample callable: the identity function on one-dimensional points. -/
def idCall : Callable K := fun vs =>
  match vs with
  | [.scalar q] => .ok (.scalar q)
  | _ => .error .typeErr

/-- Sample callable: the sum function on two-dimensional points. -/
def sumCall : Callable K := fun vs =>
  match vs with
  | [.scalar p, .scalar q] => .ok (.scalar (p + q))
  | _ => .error .typeErr

/-- Sample space: `FunctionSpace(IntervalProd([0], [2]), RealNumbers())`. -/
def sampleSpace1 : FunctionSet K := ⟨.fspace, .intervalProd [0] [2], .realNumbers⟩

/-- Sample space: `FunctionSpace(IntervalProd([0, 0], [2, 2]), RealNumbers())`. -/
def sampleSpace2 : FunctionSet K := ⟨.fspace, .intervalProd [0, 0] [2, 2], .realNumbers⟩

/-- Sample set: `FunctionSet(IntervalProd([0], [2]), RealNumbers())` — same
domain and range as `sampleSpace1` but of the base class. -/
def sampleSet1 : FunctionSet K := ⟨.fset, .intervalProd [0] [2], .realNumbers⟩

/-- Sample space over a scalar domain:
`FunctionSpace(RealNumbers(), RealNumbers())`. -/
def sampleRealSpace : FunctionSet K := ⟨.fspace, .realNumbers, .realNumbers⟩

/-- Sample store: every reference holds the identity element of
`sampleSpace1` (distinct references are distinct objects wrapping the same
function). -/
def sampleStore : Store K := fun _ => sampleSpace1.mkVector idCall

/-- Sample store with two elements of different spaces. -/
def mixedStore : Store K := fun i =>
  if i = 0 then sampleSpace1.mkVector idCall else sampleSpace2.mkVector idCall

/-- Sample element `e1 = space.element(f)` for the sum function. -/
def sumElement : FunctionSet.Vector K := sampleSpace2.element (.fn sumCall)

/-- Sample element `e2 = space.element(e1)`, the rewrap of `sumElement`. -/
def rewrapElement : FunctionSet.Vector K := sampleSpace2.element (.vec sumElement)

/-- Sample store holding `e1` at reference 0 and `e2` at reference 1. -/
def rewrapStore : Store K := fun i => if i = 0 then sumElement else rewrapElement

set_option linter.unusedSectionVars false

/-! ### Supporting lemmas -/

/-- Scalar wrapping and coordinate extraction are inverse. -/
theorem scalarListMapScalar (cs : List K) : scalarList? (cs.map .scalar) = some cs := by
  induction cs with
  | nil => rfl
  | cons q qs ih => simp [scalarList?, ih]

/-- Membership of a wrapped coordinate vector is the bounds check. -/
theorem memBArrMapScalar (lo hi cs : List K) (flag : Bool) :
    SetObj.memB (.intervalProd lo hi) (.arr flag (cs.map .scalar)) = inBox lo hi cs := by
  simp [SetObj.memB, scalarListMapScalar]

/-- A one-element tuple holding an array-like is never a point of an
`IntervalProd`. -/
theorem memBSingletonArr (lo hi : List K) (f2 f3 : Bool) (vs : List (Val K)) :
    SetObj.memB (.intervalProd lo hi) (.arr f2 [.arr f3 vs]) = false := by
  simp [SetObj.memB, scalarList?]

/-- On scalar results of the constituent callables, the synthesized
`lincomb_call` closure computes the general linear combination in every
coefficient branch. -/
theorem lincombCallScalar [Nontrivial K] (a b : K) (f g : Callable K)
    (args : List (Val K)) (xv yv : K)
    (hf : f args = .ok (.scalar xv)) (hg : g args = .ok (.scalar yv)) :
    lincombCall a f b g args = .ok (.scalar (a * xv + b * yv)) := by
  unfold lincombCall
  rw [hf, hg]
  by_cases ha0 : a = 0 <;> by_cases hb0 : b = 0 <;>
    by_cases ha1 : a = 1 <;> by_cases hb1 : b = 1 <;>
    simp_all [imulScalar, iaddVal] <;> ring_nf

/-- Wrapped rows parse back to themselves. -/
theorem rowsScalarsMap (rows : List (List K)) :
    rowsScalars? (rows.map coordArray) = some rows := by
  induction rows with
  | nil => rfl
  | cons r rs ih => simp [rowsScalars?, coordArray, rowScalars?, scalarListMapScalar, ih]

/-- A nonempty rectangular point matrix is recognized as an `(N, d)` array
and parses back to its rows. -/
theorem ndMatrixPointMatrix (d : Nat) (rows : List (List K)) (hne : rows ≠ [])
    (hlen : ∀ r ∈ rows, r.length = d) :
    ndMatrix? (pointMatrix rows) = some rows := by
  cases rows with
  | nil => exact absurd rfl hne
  | cons r rs =>
    have hmap := rowsScalarsMap (K := K) (r :: rs)
    simp only [List.map_cons] at hmap
    have hall : ∀ s ∈ rs, s.length = r.length := by
      intro s hs
      simp [hlen s (by simp [hs]), hlen r (by simp)]
    simp [ndMatrix?, pointMatrix, hmap]
    exact hall

/-- Flattening wrapped scalars recovers them. -/
theorem scalarLeavesMapScalar (v : List K) :
    scalarLeavesList (v.map .scalar) = some v := by
  induction v with
  | nil => rfl
  | cons q qs ih => simp [scalarLeavesList, scalarLeaves, ih]

/-- `np.min` of a nonempty 1-D coordinate array is its least entry. -/
theorem npMinAllCoord (v : List K) (h : v ≠ []) :
    npMinAll (coordArray v) = .ok (colMin v) := by
  cases v with
  | nil => exact absurd rfl h
  | cons q qs =>
    have hl := scalarLeavesMapScalar (K := K) (q :: qs)
    simp only [List.map_cons] at hl
    simp [npMinAll, coordArray, scalarLeaves, hl, colMin]

/-- `np.max` of a nonempty 1-D coordinate array is its greatest entry. -/
theorem npMaxAllCoord (v : List K) (h : v ≠ []) :
    npMaxAll (coordArray v) = .ok (colMax v) := by
  cases v with
  | nil => exact absurd rfl h
  | cons q qs =>
    have hl := scalarLeavesMapScalar (K := K) (q :: qs)
    simp only [List.map_cons] at hl
    simp [npMaxAll, coordArray, scalarLeaves, hl, colMax]

/-- The per-array minima of nonempty coordinate arrays. -/
theorem npMinsCoord (vecs : List (List K)) (h : ∀ v ∈ vecs, v ≠ []) :
    npMins (vecs.map coordArray) = .ok (vecs.map colMin) := by
  induction vecs with
  | nil => rfl
  | cons v vs ih =>
    simp [npMins, npMinAllCoord v (h v (by simp)), ih (fun w hw => h w (by simp [hw]))]
    rfl

/-- The per-array maxima of nonempty coordinate arrays. -/
theorem npMaxsCoord (vecs : List (List K)) (h : ∀ v ∈ vecs, v ≠ []) :
    npMaxs (vecs.map coordArray) = .ok (vecs.map colMax) := by
  induction vecs with
  | nil => rfl
  | cons v vs ih =>
    simp [npMaxs, npMaxAllCoord v (h v (by simp)), ih (fun w hw => h w (by simp [hw]))]
    rfl

/-- A 1-D coordinate array is not an `(N, d)` matrix. -/
theorem ndMatrixCoordArray (v : List K) : ndMatrix? (coordArray v) = none := by
  cases v with
  | nil => rfl
  | cons q qs => simp [ndMatrix?, coordArray, rowsScalars?, rowScalars?]

/-- Coordinate arrays are `ndarray`s. -/
theorem allNdarrayCoord (vecs : List (List K)) :
    (vecs.map coordArray).all Val.isNdarray = true := by
  rw [List.all_eq_true]
  intro x hx
  obtain ⟨v, hv, rfl⟩ := List.mem_map.mp hx
  rfl

/-! ### Claim theorems -/

/-- Claim C1: for every `FunctionSpace`, scalars `a`, `b`, and elements `x`,
`y`, `out` — the references `x`, `y`, `out` are arbitrary and may alias in
any way, covering `out is x`, `out is y` and the self-combination
`lincomb(a, x, b, x, out=x)` — after `_lincomb(a, x, b, y, out)` the element
`out`, evaluated (as a call with a single domain point) at any point `t` of
the `IntervalProd` domain, returns `a * x0(t) + b * y0(t)` where `x0`, `y0`
are the callables wrapped by `x` and `y` at the moment `_lincomb` was
invoked; because the right-hand side is the general-branch formula for all
`a`, `b`, the optimized branches (`a == 0`, `b == 0`, `a == 1`, `b == 1`)
agree with the general branch. -/
theorem lincomb_eval [Nontrivial K] (a b : K) (st : Store K) (x y z : Nat)
    (lo hi : List K) (t : Val K) (xv yv : K)
    (hdom : ((st z).space).domain = .intervalProd lo hi)
    (hran : ((st z).space).ran = .realNumbers ∨ ((st z).space).ran = .complexNumbers)
    (ht : SetObj.memB (.intervalProd lo hi) t = true)
    (hx : (st x).getCall [t] = .ok (.scalar xv))
    (hy : (st y).getCall [t] = .ok (.scalar yv)) :
    ((FunctionSpace.lincomb a x b y z st) z).call [t] = .ok (.scalar (a * xv + b * yv)) := by
  obtain ⟨flag, vs, rfl⟩ : ∃ flag vs, t = .arr flag vs := by
    cases t with
    | scalar q => simp [SetObj.memB] at ht
    | arr f vs => exact ⟨f, vs, rfl⟩
  have hspace : ((FunctionSpace.lincomb a x b y z st) z).space = (st z).space := by
    simp [FunctionSpace.lincomb]
  have hget : ((FunctionSpace.lincomb a x b y z st) z).getCall =
      lincombCall a ((st x).getCall) b ((st y).getCall) := by
    simp [FunctionSpace.lincomb, FunctionSet.Vector.getCall]
  have hdisp : dispatchCheck (SetObj.intervalProd lo hi) [Val.arr flag vs] = .ok () := by
    unfold dispatchCheck
    rw [memBSingletonArr]
    simp [ht]
  have hlin := lincombCallScalar a b ((st x).getCall) ((st y).getCall)
    [Val.arr flag vs] xv yv hx hy
  have hrc : rangeCheck (((st z).space).ran) (Val.scalar (a * xv + b * yv)) = .ok () := by
    rcases hran with h | h <;> rw [h] <;> rfl
  unfold FunctionSet.Vector.call
  simp [hspace, hget, hdom, hdisp, hlin, hrc]
  rfl

/-- Witness for C1, exercising the aliased self-combination
`lincomb(2, x, 3, x, out=x)` on the identity element over `[0, 2]`:
afterwards `x(1) = 5 = 5 * original_x(1)`. -/
theorem lincomb_eval_witness :
    SetObj.memB (K := ℤ) (.intervalProd [0] [2]) (.arr true [.scalar 1]) = true ∧
    (sampleStore (K := ℤ) 0).getCall [.arr true [.scalar 1]] = .ok (.scalar 1) ∧
    ((FunctionSpace.lincomb 2 0 3 0 0 (sampleStore (K := ℤ))) 0).call
        [.arr true [.scalar 1]] = .ok (.scalar 5) := by
  refine ⟨by decide, rfl, ?_⟩
  have h := lincomb_eval (K := ℤ) 2 3 sampleStore 0 0 0 [0] [2]
    (.arr true [.scalar 1]) 1 1 rfl (Or.inl rfl) (by decide) rfl rfl
  norm_num at h
  exact h

/-- Claim C9: when `out` is distinct from `x` and from `y`,
`_lincomb(a, x, b, y, out)` leaves the objects `x` and `y` (space, wrapped
callable, evaluation behaviour) completely unchanged, replaces only `out`'s
`_call` attribute with the synthesized closure — every other attribute of
`out` is preserved — and touches no other object in the store. -/
theorem lincomb_frame (a b : K) (st : Store K) (x y z : Nat)
    (hx : z ≠ x) (hy : z ≠ y) :
    (FunctionSpace.lincomb a x b y z st) x = st x ∧
    (FunctionSpace.lincomb a x b y z st) y = st y ∧
    (FunctionSpace.lincomb a x b y z st) z =
      { st z with callAttr := some (lincombCall a ((st x).getCall) b ((st y).getCall)) } ∧
    (∀ w, w ≠ z → (FunctionSpace.lincomb a x b y z st) w = st w) := by
  refine ⟨?_, ?_, ?_, fun w hw => ?_⟩ <;>
    simp [FunctionSpace.lincomb]
  · intro h; exact absurd h.symm hx
  · intro h; exact absurd h.symm hy
  · intro h; exact absurd h hw

/-- Witness for C9 at distinct references 0, 1, 2. -/
theorem lincomb_frame_witness :
    (FunctionSpace.lincomb 2 0 3 1 2 (sampleStore (K := ℤ))) 0 = sampleStore 0 ∧
    (FunctionSpace.lincomb 2 0 3 1 2 (sampleStore (K := ℤ))) 1 = sampleStore 1 ∧
    (FunctionSpace.lincomb 2 0 3 1 2 (sampleStore (K := ℤ))) 2 =
      { (sampleStore (K := ℤ) 2) with callAttr := (some (lincombCall 2
          ((sampleStore (K := ℤ) 0).getCall) 3 ((sampleStore (K := ℤ) 1).getCall))) } :=
  ⟨(lincomb_frame 2 3 sampleStore 0 1 2 (by decide) (by decide)).1,
   (lincomb_frame 2 3 sampleStore 0 1 2 (by decide) (by decide)).2.1,
   (lincomb_frame 2 3 sampleStore 0 1 2 (by decide) (by decide)).2.2.1⟩

/-- Claim C2 (code bug): `zero_` itself does return the field's zero scalar
for arbitrary arguments (last conjunct), and `space.zero()(x)` returns the
zero scalar when the domain point `x` is array-like (fourth conjunct); but
for `FunctionSpace(RealNumbers(), RealNumbers())` the scalar `1` is in the
domain and `space.zero()(1)` raises TypeError instead of returning the zero
element, because `Vector._call` evaluates `self._call_impl(*x)` and a scalar
cannot be unpacked — so the claim's universal statement fails on the code. -/
theorem zero_call_results :
    SetObj.memB (K := ℤ) .realNumbers (.scalar 1) = true ∧
    (FunctionSpace.zero (sampleRealSpace (K := ℤ))).call [.scalar 1] = .error .typeErr ∧
    SetObj.memB (K := ℤ) (.intervalProd [0] [2]) (.arr false [.scalar 1]) = true ∧
    (FunctionSpace.zero (sampleSpace1 (K := ℤ))).call [.arr false [.scalar 1]] =
      .ok (.scalar 0) ∧
    (∀ (args : List (Val ℤ)), zeroCall args = .ok (.scalar 0)) :=
  ⟨rfl, rfl, by decide, rfl, fun _ => rfl⟩

/-- Claim C3 (code bug): over the domain `[0, 2] × [0, 2]`, for the element
wrapping the two-argument sum function, the tuple-form call `f(1, 1)` does
dispatch as a single point (first conjunct: the dispatch phase succeeds) but
then raises TypeError, because `__call__` invokes `self._call(*x)` and the
method `_call` accepts exactly one positional argument; the single-argument
form `f([1, 1])` returns `2` as specified.  The two forms therefore do not
return equal results, contrary to the claim and to the source's own comment
naming `f(0, 1, 2)` as the supported single-value form. -/
theorem tuple_point_call_raises :
    dispatchCheck (K := ℤ) (.intervalProd [0, 0] [2, 2]) [.scalar 1, .scalar 1] = .ok () ∧
    ((sampleSpace2 (K := ℤ)).element (.fn sumCall)).call [.scalar 1, .scalar 1] =
      .error .typeErr ∧
    ((sampleSpace2 (K := ℤ)).element (.fn sumCall)).call [.arr false [.scalar 1, .scalar 1]] =
      .ok (.scalar 2) :=
  ⟨rfl, rfl, rfl⟩

/-- Claim C5 (code bug): with `e1 = space.element(sum)` and
`e2 = space.element(e1)`, `e1([1, 1])` returns `2` but `e2([1, 1])` raises
TypeError: `element` re-wraps `e1._call` (the bound method), not the
underlying callable, adding a layer of call indirection.  The wrapped
callables also differ behaviourally (`sumCall (1, 1)` returns `2` while
`e2._call_impl(1, 1)` raises), and `e1 == e2` raises AttributeError rather
than evaluating to `True`, so the claimed idempotence equality fails. -/
theorem element_rewrap_results :
    (sumElement (K := ℤ)).call [.arr false [.scalar 1, .scalar 1]] = .ok (.scalar 2) ∧
    (rewrapElement (K := ℤ)).call [.arr false [.scalar 1, .scalar 1]] = .error .typeErr ∧
    sumCall (K := ℤ) [.scalar 1, .scalar 1] = .ok (.scalar 2) ∧
    (rewrapElement (K := ℤ)).callImpl [.scalar 1, .scalar 1] = .error .typeErr ∧
    FunctionSet.vecEq (rewrapStore (K := ℤ)) 0 1 = .error .attrErr :=
  ⟨rfl, rfl, rfl, rfl, rfl⟩

/-- Claim C6 (code bug): element equality is reflexive (identity
short-circuit, first conjunct) and returns `False` without raising when the
spaces differ (third conjunct); but for two distinct elements of the same
space the comparison reads the nonexistent attribute `self._call_imp` (a
misspelling of `_call_impl`) and raises AttributeError instead of returning
a boolean, so the claim's never-raises statement fails on the code. -/
theorem vector_eq_results :
    FunctionSet.vecEq (sampleStore (K := ℤ)) 0 0 = .ok true ∧
    FunctionSet.vecEq (sampleStore (K := ℤ)) 0 1 = .error .attrErr ∧
    FunctionSet.vecEq (mixedStore (K := ℤ)) 0 1 = .ok false :=
  ⟨rfl, rfl, rfl⟩

/-- Claim C8 (code bug): `_multiply(x, y)` raises AttributeError on any pair
of elements, because it reads `x.function`, an attribute no `Vector` ever
carries; and even the rebinding it never reaches would set only the unread
`_function` attribute, leaving the evaluation behaviour (`_call`) of `y`
unchanged (second conjunct) — so `y` is never rebound to compute
`x0(t) * y0(t)` as the claim states. -/
theorem multiply_raises_attr_and_rebind_inert :
    FunctionSpace.multiply (sampleStore (K := ℤ)) 0 1 = .error .attrErr ∧
    (∀ (v : FunctionSet.Vector ℤ) (c : Callable ℤ),
      ({ v with functionAttr := some c } : FunctionSet.Vector ℤ).getCall = v.getCall) :=
  ⟨rfl, fun _ _ => rfl⟩

/-- Claim C10: with the same domain `IntervalProd([0], [2])` and range
`RealNumbers()`, the `FunctionSet` `s` and the `FunctionSpace` `p` satisfy
`s == p` (`FunctionSet.__eq__` accepts any `FunctionSet` instance, and a
`FunctionSpace` is one) but not `p == s` (`FunctionSpace.__eq__` requires a
`FunctionSpace` instance), so space equality is not symmetric. -/
theorem fset_fspace_eq_asymmetric :
    (sampleSet1 (K := ℤ)).domain = (sampleSpace1 (K := ℤ)).domain ∧
    (sampleSet1 (K := ℤ)).ran = (sampleSpace1 (K := ℤ)).ran ∧
    (sampleSet1 (K := ℤ)).kind = .fset ∧ (sampleSpace1 (K := ℤ)).kind = .fspace ∧
    (sampleSet1 (K := ℤ)).eqDyn (sampleSpace1 (K := ℤ)) = true ∧
    (sampleSpace1 (K := ℤ)).eqDyn (sampleSet1 (K := ℤ)) = false := by
  refine ⟨rfl, rfl, rfl, rfl, by decide, by decide⟩

/-- Claim C7 (counterexample): the `FunctionSpace.Vector` element of the
`FunctionSpace` over `IntervalProd([0], [2])` is not of the exact element
type of the plain `FunctionSet` with the same domain and range, yet the
containment test accepts it — `__contains__` checks against the base class
`FunctionSet.Vector`, not against `self`'s exact element type — so the
claimed equivalence is false at this input. -/
theorem contains_exact_type_counterexample :
    ¬ ((sampleSet1 (K := ℤ)).containsPy (.vec ((sampleSpace1 (K := ℤ)).mkVector idCall)) = true ↔
        (((sampleSpace1 (K := ℤ)).mkVector idCall).kind = (sampleSet1 (K := ℤ)).kind.elemKind ∧
          (sampleSet1 (K := ℤ)).eqDyn (((sampleSpace1 (K := ℤ)).mkVector idCall).space) = true)) := by
  intro h
  have h1 : (sampleSet1 (K := ℤ)).containsPy
      (.vec ((sampleSpace1 (K := ℤ)).mkVector idCall)) = true := by decide
  have h2 := (h.mp h1).1
  exact absurd h2 (by decide)

/-- Claim C7 (amended): for every `FunctionSet` (or `FunctionSpace`) `s` and
every object `o`, the containment test `o in s` is true exactly when `o` is
an instance of the base class `FunctionSet.Vector` — instances of any
subclass included, so elements of `FunctionSpace`s qualify — whose space
compares equal to `s` under `s`'s own equality. -/
theorem contains_iff_base_vector_and_space_eq (s : FunctionSet K) (o : PyObj K) :
    s.containsPy o = true ↔ ∃ x, o = .vec x ∧ s.eqDyn x.space = true := by
  cases o with
  | vec x => simp [FunctionSet.containsPy]
  | nonVector => simp [FunctionSet.containsPy]

/-- Claim C4: a vectorized call over an `IntervalProd` domain validates only
the bounding box.  First part: for an `(N, d)` point array (any nonempty
list of `d`-coordinate rows), the dispatch/validation phase raises a
ValueError exactly when the columnwise-minimum point or columnwise-maximum
point falls outside the box, and succeeds otherwise — in particular the
individual rows are never tested, only the two extreme points.  Second
part: the same for `d` meshgrid coordinate arrays (nonempty, with the first
one not itself a domain point, which would take the single-point branch),
with per-array minima and maxima. -/
theorem vectorized_call_bounding_box_only :
    (∀ (lo hi : List K) (rows : List (List K)),
      rows ≠ [] → (∀ r ∈ rows, r.length = lo.length) →
      dispatchCheck (.intervalProd lo hi) [pointMatrix rows] =
        (if inBox lo hi (colMins rows) ∧ inBox lo hi (colMaxs rows)
         then .ok () else .error .valueErr)) ∧
    (∀ (lo hi : List K) (v0 : List K) (vr : List (List K)),
      (v0 :: vr).length = lo.length →
      (∀ v ∈ v0 :: vr, v ≠ []) →
      SetObj.memB (.intervalProd lo hi) (coordArray v0) = false →
      dispatchCheck (.intervalProd lo hi) ((v0 :: vr).map coordArray) =
        (if inBox lo hi ((v0 :: vr).map colMin) ∧ inBox lo hi ((v0 :: vr).map colMax)
         then .ok () else .error .valueErr)) := by
  constructor
  · intro lo hi rows hne hlen
    cases rows with
    | nil => exact absurd rfl hne
    | cons r rs =>
      have h1 : SetObj.memB (.intervalProd lo hi) (.arr false [pointMatrix (r :: rs)]) = false := by
        simp [pointMatrix, memBSingletonArr]
      have h2 : SetObj.memB (.intervalProd lo hi) (pointMatrix (r :: rs)) = false := by
        simp [pointMatrix, SetObj.memB, coordArray, scalarList?]
      have hnd := ndMatrixPointMatrix lo.length (r :: rs) hne hlen
      have hw : matrixWidth (r :: rs) = lo.length := hlen r (by simp)
      by_cases hm1 : inBox lo hi (colMins (r :: rs)) = true <;>
        by_cases hm2 : inBox lo hi (colMaxs (r :: rs)) = true <;>
        simp [dispatchCheck, h1, h2, hnd, hw, matrixWidth, SetObj.ndim,
          memBArrMapScalar, hm1, hm2, hlen r (by simp)]
  · intro lo hi v0 vr hlen hne hmem
    have h1 : SetObj.memB (.intervalProd lo hi)
        (.arr false (coordArray v0 :: vr.map coordArray)) = false := by
      simp [SetObj.memB, coordArray, scalarList?]
    have hnd := ndMatrixCoordArray (K := K) v0
    have hmins : npMins (coordArray v0 :: vr.map coordArray) =
        .ok (colMin v0 :: vr.map colMin) := by
      simpa only [List.map_cons] using npMinsCoord (v0 :: vr) hne
    have hmaxs : npMaxs (coordArray v0 :: vr.map coordArray) =
        .ok (colMax v0 :: vr.map colMax) := by
      simpa only [List.map_cons] using npMaxsCoord (v0 :: vr) hne
    have hlenc : vr.length + 1 = lo.length := by simpa using hlen
    have hinm : SetObj.memB (.intervalProd lo hi)
        (.arr false (Val.scalar (colMin v0) :: vr.map (Val.scalar ∘ colMin))) =
        inBox lo hi (colMin v0 :: vr.map colMin) := by
      simpa only [List.map_cons, List.map_map] using
        memBArrMapScalar lo hi (colMin v0 :: vr.map colMin) false
    have hinx : SetObj.memB (.intervalProd lo hi)
        (.arr false (Val.scalar (colMax v0) :: vr.map (Val.scalar ∘ colMax))) =
        inBox lo hi (colMax v0 :: vr.map colMax) := by
      simpa only [List.map_cons, List.map_map] using
        memBArrMapScalar lo hi (colMax v0 :: vr.map colMax) false
    have hnd1 : (coordArray v0).isNdarray = true := rfl
    have hndall : ∀ a ∈ vr, (coordArray a).isNdarray = true := fun a _ => rfl
    by_cases hm1 : inBox lo hi (colMin v0 :: vr.map colMin) = true <;>
      by_cases hm2 : inBox lo hi (colMax v0 :: vr.map colMax) = true <;>
      simp [dispatchCheck, meshgridCheck, h1, hmem, hnd, hmins, hmaxs, hlenc,
        SetObj.ndim, hnd1, hndall, hinm, hinx, hm1, hm2] <;>
      exact fun a _ => rfl

/-- Witness for C4 over `[0, 2] × [0, 2]`: the point list
`[[1, 1], [0, 2]]` passes the bounding-box check, `[[1, 1], [0, 3]]` is
rejected with the value-kind error, and the meshgrid pair
`([0, 1, 2], [0, 1])` passes. -/
theorem vectorized_call_bounding_box_only_witness :
    dispatchCheck (K := ℤ) (.intervalProd [0, 0] [2, 2])
      [pointMatrix [[1, 1], [0, 2]]] = .ok () ∧
    dispatchCheck (K := ℤ) (.intervalProd [0, 0] [2, 2])
      [pointMatrix [[1, 1], [0, 3]]] = .error .valueErr ∧
    dispatchCheck (K := ℤ) (.intervalProd [0, 0] [2, 2])
      (([0, 1, 2] :: [[0, 1]]).map coordArray) = .ok () := by
  refine ⟨?_, ?_, ?_⟩
  · rw [vectorized_call_bounding_box_only.1 [0, 0] [2, 2] [[1, 1], [0, 2]]
      (by decide) (by decide)]
    rfl
  · rw [vectorized_call_bounding_box_only.1 [0, 0] [2, 2] [[1, 1], [0, 3]]
      (by decide) (by decide)]
    rfl
  · rw [vectorized_call_bounding_box_only.2 [0, 0] [2, 2] [0, 1, 2] [[0, 1]]
      (by decide) (by decide) (by decide)]
    rfl
